import Mathlib

/-!
Verification development for the WPScan output parser
(`src/wpwatcher/parser.py`).  The Python source is shallowly embedded:
every definition below mirrors one Python function or method of the
source file, with Python strings as `String`, Python lists as `List`,
Python truthiness made explicit, and Python exceptions as `Except`.
-/

/-! ## Python string helpers -/

/-- Membership test for Python whitespace characters handled by `str.strip`. -/
def isPySpace (c : Char) : Bool :=
  c == ' ' || c == '\t' || c == '\n' || c == '\r' || c == '\x0b' || c == '\x0c'

/-- Embedding of Python `str.strip()`: drop leading and trailing whitespace. -/
def pyStrip (s : String) : String :=
  String.mk (((s.toList.dropWhile isPySpace).reverse.dropWhile isPySpace).reverse)

/-- Helper for `occursIn`: does `needle` occur at the very start of `hay`? -/
def startsList (needle hay : List Char) : Bool :=
  match needle, hay with
  | [], _ => true
  | _ :: _, [] => false
  | a :: as, b :: bs => a == b && startsList as bs

/-- Helper for `occursIn`: does `needle` occur anywhere inside `hay`? -/
def occursList (needle hay : List Char) : Bool :=
  match hay with
  | [] => needle.isEmpty
  | _ :: rest => startsList needle hay || occursList needle rest

/-- Embedding of the Python substring test `needle in s`. -/
def occursIn (needle s : String) : Bool :=
  occursList needle.toList s.toList

/-- Characterization of `startsList` as an existential prefix decomposition. -/
theorem startsList_iff (n h : List Char) :
    startsList n h = true ↔ ∃ t, h = n ++ t := by
  induction n generalizing h with
  | nil => simp [startsList]
  | cons a as ih =>
    cases h with
    | nil => simp [startsList]
    | cons b bs =>
      simp only [startsList, Bool.and_eq_true, beq_iff_eq, ih, List.cons_append,
        List.cons.injEq]
      constructor
      · rintro ⟨rfl, t, rfl⟩; exact ⟨t, rfl, rfl⟩
      · rintro ⟨t, rfl, rfl⟩; exact ⟨rfl, t, rfl⟩

/-- Characterization of `occursList` as an existential infix decomposition. -/
theorem occursList_iff (n h : List Char) :
    occursList n h = true ↔ ∃ s t, h = s ++ n ++ t := by
  induction h with
  | nil =>
    simp only [occursList, List.isEmpty_iff]
    constructor
    · rintro rfl; exact ⟨[], [], rfl⟩
    · rintro ⟨s, t, hst⟩
      have h0 : s ++ n ++ t = [] := hst.symm
      rcases List.append_eq_nil.mp h0 with ⟨h01, h02⟩
      rcases List.append_eq_nil.mp h01 with ⟨h03, h04⟩
      exact h04
  | cons b bs ih =>
    simp only [occursList, Bool.or_eq_true, startsList_iff, ih]
    constructor
    · rintro (⟨t, ht⟩ | ⟨s, t, hst⟩)
      · exact ⟨[], t, by simpa using ht⟩
      · exact ⟨b :: s, t, by simp [hst]⟩
    · rintro ⟨s, t, hst⟩
      cases s with
      | nil => exact Or.inl ⟨t, by simpa using hst⟩
      | cons c cs =>
        right
        have hbs : bs = cs ++ n ++ t := by
          have h0 := hst
          simp only [List.cons_append, List.cons.injEq] at h0
          exact h0.2
        exact ⟨cs, t, hbs⟩

/-- Substring occurrence is transitive: if `a` occurs in `b` and `b` occurs in
`w`, then `a` occurs in `w`. -/
theorem occursIn_trans (a b w : String) (hab : occursIn a b = true)
    (hbw : occursIn b w = true) : occursIn a w = true := by
  unfold occursIn at *
  rw [occursList_iff] at hab hbw ⊢
  obtain ⟨s1, t1, h1⟩ := hab
  obtain ⟨s2, t2, h2⟩ := hbw
  exact ⟨s2 ++ s1, t1 ++ t2, by rw [h2, h1]; simp⟩

/-! ## False-positive filter (`WPScanJsonParser` static methods) -/

/-- Embedding of `WPScanJsonParser.is_false_positive`: true iff some
false-positive rule string occurs as a substring of `string` (the Python
function returns `True`, or falls through returning `None`, which is falsy). -/
def WPScanJsonParser.is_false_positive (string : String)
    (false_positives_strings : List String) : Bool :=
  false_positives_strings.any (fun fp => occursIn fp string)

/-- Loop of `WPScanJsonParser.ignore_false_positives`.  The Python code
iterates over `messages` with a hidden index while calling
`messages.remove(alert)` on the list being iterated; `remove` deletes the
first element equal to `alert`.  The state is the hidden index `idx` and the
current list; the fuel argument is the number of remaining iterations, which
is bounded by the initial length of the list because the index grows by one
at every step and the length never grows. -/
def ignore_false_positives_loop (false_positives_strings : List String) :
    Nat → Nat → List String → List String
  | 0, _, messages => messages
  | fuel + 1, idx, messages =>
    if h : idx < messages.length then
      let alert := messages[idx]
      if WPScanJsonParser.is_false_positive alert false_positives_strings then
        ignore_false_positives_loop false_positives_strings fuel (idx + 1)
          (messages.erase alert)
      else
        ignore_false_positives_loop false_positives_strings fuel (idx + 1) messages
    else messages

/-- Embedding of `WPScanJsonParser.ignore_false_positives` with the exact
Python `for`/`remove` semantics (removing during iteration makes the iterator
skip the element that slides into the removed slot). -/
def WPScanJsonParser.ignore_false_positives (messages : List String)
    (false_positives_strings : List String) : List String :=
  ignore_false_positives_loop false_positives_strings messages.length 0 messages

/-! ## The JSON parser dispatcher (`WPScanJsonParser`) -/

/-- View of a structured component as consumed by `WPScanJsonParser`: the
parser only ever calls the three bucket methods, so a component is its three
rendered bucket lists. -/
structure Component where
  infos : List String
  warnings : List String
  alerts : List String
deriving DecidableEq

/-- State of a `WPScanJsonParser` instance: its component list and its
false-positive rules. -/
structure WPScanJsonParser where
  components : List Component
  false_positives_strings : List String
deriving DecidableEq

/-- Embedding of `WPScanJsonParser.__init__`: stores the rules (defaulting to
the empty list); the component population is still unwritten in the source
(the body ends with a `WIP` comment), so the component list starts empty. -/
def WPScanJsonParser.init (false_positives_strings : Option (List String)) :
    WPScanJsonParser :=
  { components := [],
    false_positives_strings := false_positives_strings.getD [] }

/-- Embedding of `WPScanJsonParser.get_infos`: per component, emit its infos
followed by one prefixed copy of every alert or warning that matches a
false-positive rule. -/
def WPScanJsonParser.get_infos (p : WPScanJsonParser) : List String :=
  p.components.flatMap fun component =>
    component.infos ++
      ((component.alerts ++ component.warnings).filter
          (fun alert =>
            WPScanJsonParser.is_false_positive alert p.false_positives_strings)).map
        (fun alert => "[False positive]\n" ++ alert)

/-- Embedding of `WPScanJsonParser.get_warnings`: per component, filter the
warnings through `ignore_false_positives`, then clear the bucket when exactly
one warning remains and it contains the version-undetermined boilerplate. -/
def WPScanJsonParser.get_warnings (p : WPScanJsonParser) : List String :=
  p.components.flatMap fun component =>
    let component_warnings :=
      WPScanJsonParser.ignore_false_positives component.warnings
        p.false_positives_strings
    if component_warnings.length == 1 &&
        occursIn "The version could not be determined" (component_warnings.headD "") then
      []
    else component_warnings

/-- Embedding of `WPScanJsonParser.get_alerts`: per component, filter the
alerts through `ignore_false_positives`. -/
def WPScanJsonParser.get_alerts (p : WPScanJsonParser) : List String :=
  p.components.flatMap fun component =>
    WPScanJsonParser.ignore_false_positives component.alerts
      p.false_positives_strings

/-! ## Structured finding hierarchy -/

/-- Python truthiness of an optional string attribute (Python `None` and the
empty string are falsy). -/
def truthyOpt : Option String → Bool
  | none => false
  | some s => s ≠ ""

/-- Rendering of an optional string attribute through Python `format`
(`None` renders as the text `None`). -/
def fmtOpt : Option String → String
  | none => "None"
  | some s => s

/-- Character-level recursion for `pyTitle`: the flag records whether the
previous character was a letter. -/
def pyTitleAux : Bool → List Char → List Char
  | _, [] => []
  | prevAlpha, c :: rest =>
    if c.isAlpha then
      (if prevAlpha then c.toLower else c.toUpper) :: pyTitleAux true rest
    else c :: pyTitleAux false rest

/-- Embedding of Python `str.title()`: uppercase the first letter of every
word, lowercase the other letters. -/
def pyTitle (s : String) : String :=
  String.mk (pyTitleAux false s.toList)

/-- Object state of a well-formed vulnerability record, with the attributes
the assignments of `Vulnerability.__init__` bind from `data.get(...)`: a
present title string, an optional rendered CVSS score, an optional fixed-in
version and the reference links grouped by reference-type key in report
order.  The constructor call itself raises the double-self `TypeError` of
line 132 (see `WPItem.init` for the pattern), so the methods are embedded as
functions of this object state.  The theorems below concern records whose
title is a string (a `None` title would make the string concatenations in
`get_alerts` raise in Python), whose score and version render to the strings
held here, and whose references form a mapping from type keys to link
lists. -/
structure Vulnerability where
  title : String
  cvss : Option String
  fixed_in : Option String
  references : List (String × List String)
deriving DecidableEq

/-- Sequential concatenation of rendered pieces, as the `alert +=` loop of
the source produces it. -/
def strConcat : List String → String
  | [] => ""
  | x :: rest => x ++ strConcat rest

/-- Rendering of one reference group inside `Vulnerability.get_alerts`: the
`cve` and `wpvulndb` keys link to their public databases, any other key
renders with its `str.title()` display form. -/
def refGroupRender (ref : String) (links : List String) : String :=
  if ref == "cve" then
    strConcat (links.map fun cve =>
      "\n- CVE: http://cve.mitre.org/cgi-bin/cvename.cgi?name=CVE-" ++ cve)
  else if ref == "wpvulndb" then
    strConcat (links.map fun wpvulndb =>
      "\n- WPVulnDB: https://wpvulndb.com/vulnerabilities/" ++ wpvulndb)
  else
    strConcat (links.map fun link =>
      "\n- " ++ pyTitle ref ++ ": " ++ link)

/-- Embedding of `Vulnerability.get_alerts`: exactly one alert built from the
title, the optional CVSS line, the fixed-in line or its absence notice, and
one reference line per link grouped by reference-type key. -/
def Vulnerability.get_alerts (v : Vulnerability) : List String :=
  let alert := v.title
  let alert := if truthyOpt v.cvss then alert ++ "\nCVSS: " ++ fmtOpt v.cvss else alert
  let alert :=
    if truthyOpt v.fixed_in then alert ++ "\nFixed in: " ++ fmtOpt v.fixed_in
    else alert ++ "\nNot fixed yet"
  let alert :=
    if v.references.isEmpty then alert
    else alert ++ "\nReferences: " ++
      strConcat (v.references.map fun p => refGroupRender p.1 p.2)
  [alert]

/-- Embedding of `Vulnerability.get_warnings`: always empty. -/
def Vulnerability.get_warnings (_ : Vulnerability) : List String := []

/-- Embedding of `Finding.get_alerts` over the vulnerability list a finding
holds: the concatenation of its vulnerabilities alerts. -/
def Finding.get_alerts (vulnerabilities : List Vulnerability) : List String :=
  vulnerabilities.flatMap Vulnerability.get_alerts

/-- Object state of a `WPItemVersion`: the version number the assignment of
line 218 (`data.get('number', data)`) aims at, and the vulnerabilities of
the version finding.  The constructor itself never completes in the source,
see `WPItemVersion.init`. -/
structure WPItemVersion where
  number : Option String
  vulnerabilities : List Vulnerability
deriving DecidableEq

/-- Python truthiness of a `WPItemVersion` instance: the class defines
neither a `__bool__` nor a `__len__` method, so every instance of the class
is truthy, whatever state it holds. -/
def WPItemVersion.truthy (_ : WPItemVersion) : Bool := true

/-- Embedding of `WPItemVersion.__init__`: the very first statement, line
217 `super().__init__(self, data)`, passes `self` into the two-parameter
parent `__init__` a second time (the bound `super().__init__` already
supplies it), so Python raises `TypeError` before any attribute is
assigned, whatever the data.  Even with that call repaired, line 218
`data.get('number', data)` still runs on the local `data` - `None` when the
version field is absent, since the rebinding inside `Component.__init__` is
local to that frame - and raises `AttributeError`. -/
def WPItemVersion.init (_ : Json) : Except String WPItemVersion :=
  .error "TypeError: __init__() takes 2 positional arguments but 3 were given"

/-- Object state the call `WPItemVersion(None)` evidently aims at: no
version string and no vulnerabilities.  The source call itself never
completes (see `WPItemVersion.init`); this state is used to discuss what
the repaired construction would hold. -/
def WPItemVersion.intendedOfNone : WPItemVersion :=
  { number := none, vulnerabilities := [] }

/-- Embedding of `WPItemVersion.get_alerts`: the version vulnerabilities. -/
def WPItemVersion.get_alerts (v : WPItemVersion) : List String :=
  Finding.get_alerts v.vulnerabilities

/-- Object state of a `WPItem` (plugin or theme finding): the attributes
the assignments in the body of `WPItem.__init__` bind - the slug and the
optional descriptive fields, the slug-level vulnerabilities of the
`Finding` part, and the version attribute, a `WPItemVersion` instance.  The
constructor call itself raises before reaching any of these assignments
(see `WPItem.init`); the methods are embedded as functions of this object
state. -/
structure WPItem where
  slug : String
  location : Option String
  latest_version : Option String
  last_updated : Option String
  outdated : Bool
  readme_url : Option String
  directory_listing : Bool
  error_log_url : Option String
  vulnerabilities : List Vulnerability
  version : WPItemVersion
deriving DecidableEq

/-- Embedding of `WPItem.__init__`: its first statement, line 237
`super().__init__(self, data)`, passes `self` twice into the two-parameter
`Finding.__init__`, so Python raises `TypeError` before the slug, the
vulnerabilities or the version attribute are ever assigned, whatever the
data. -/
def WPItem.init (_ : Json) : Except String WPItem :=
  .error "TypeError: __init__() takes 2 positional arguments but 3 were given"

/-- Embedding of `WPItem._get_warnings`: zero or one warning starting with
the slug, built from the outdated, directory-listing and error-log issues,
with the location appended when present. -/
def WPItem.get_warnings_aux (it : WPItem) : List String :=
  let warning := it.slug
  let issue_data := ""
  let issue_data :=
    if it.outdated then
      issue_data ++ "\nThe version is out of date, the latest version is " ++
        fmtOpt it.latest_version
    else issue_data
  let issue_data :=
    if it.directory_listing then issue_data ++ "\nDirectory listing is enabled"
    else issue_data
  let issue_data :=
    if truthyOpt it.error_log_url then
      issue_data ++ "\nAn error log file has been found: " ++ fmtOpt it.error_log_url
    else issue_data
  if issue_data == "" then []
  else
    let warning := warning ++ issue_data
    let warning :=
      if truthyOpt it.location then warning ++ "\nLocation: " ++ fmtOpt it.location
      else warning
    [warning]

/-- Embedding of `WPItem.get_alerts`: guarded by the truthiness of the
version attribute (which always holds, see `WPItemVersion.truthy`), the
slug-level vulnerability alerts followed by the version alerts. -/
def WPItem.get_alerts (it : WPItem) : List String :=
  if it.version.truthy then
    Finding.get_alerts it.vulnerabilities ++ it.version.get_alerts
  else []

/-- Special warning text appended by `WPItem.get_warnings` when the version
is falsy and slug-level vulnerabilities exist. -/
def versionUndeterminedWarning (slug : String) : String :=
  slug ++ "\nThe plugin or theme version could not be determined by WPScan, all known vulnerabilities are listed. \n            Add vulnerabilities titles to false positves strings to ignore these messages."

/-- Embedding of `WPItem.get_warnings`: the issue warning from
`_get_warnings`, then - only when the version attribute is falsy and
slug-level alerts exist - the version-undetermined notice followed by the
slug-level vulnerability alerts demoted to warnings. -/
def WPItem.get_warnings (it : WPItem) : List String :=
  let warnings := it.get_warnings_aux
  if !it.version.truthy && !(Finding.get_alerts it.vulnerabilities).isEmpty then
    warnings ++ [versionUndeterminedWarning it.slug] ++
      Finding.get_alerts it.vulnerabilities
  else warnings

/-- Embedding of `Plugin` (adds no fields over `WPItem`). -/
structure Plugin extends WPItem
deriving DecidableEq

/-- Embedding of `Plugin.get_warnings`: when the `WPItem` warnings are
truthy (non-empty), the prefixed warnings; otherwise the implicit Python
`None`. -/
def Plugin.get_warnings (p : Plugin) : Option (List String) :=
  if !(WPItem.get_warnings p.toWPItem).isEmpty then
    some ((WPItem.get_warnings p.toWPItem).map fun w => "Plugin Warning: " ++ w)
  else none

/-- Embedding of `Plugin.get_alerts`: when the `WPItem` alerts are truthy
(non-empty), the prefixed alerts; otherwise the implicit Python `None`. -/
def Plugin.get_alerts (p : Plugin) : Option (List String) :=
  if !(WPItem.get_alerts p.toWPItem).isEmpty then
    some ((WPItem.get_alerts p.toWPItem).map fun a => "Plugin Vulnerability: " ++ a)
  else none

/-- Embedding of `Theme`.  The additional attributes set by
`Theme.__init__` (style, author, license, tags, parent themes, ...) feed
only `get_infos`, which no claim exercises, so they are not tracked. -/
structure Theme extends WPItem
deriving DecidableEq

/-- Embedding of `Theme.get_warnings`: prefixed `WPItem` warnings when
non-empty, implicit `None` otherwise. -/
def Theme.get_warnings (t : Theme) : Option (List String) :=
  if !(WPItem.get_warnings t.toWPItem).isEmpty then
    some ((WPItem.get_warnings t.toWPItem).map fun w => "Theme Warning: " ++ w)
  else none

/-- Embedding of `Theme.get_alerts`: prefixed `WPItem` alerts when
non-empty, implicit `None` otherwise. -/
def Theme.get_alerts (t : Theme) : Option (List String) :=
  if !(WPItem.get_alerts t.toWPItem).isEmpty then
    some ((WPItem.get_alerts t.toWPItem).map fun a => "Theme Vulnerability: " ++ a)
  else none

/-- Embedding of `MainTheme` (adds no fields over `Theme`). -/
structure MainTheme extends Theme
deriving DecidableEq

/-- Embedding of `MainTheme.get_warnings`: the `Theme` warnings (an optional
list; Python `None` is falsy) prefixed when truthy, implicit `None`
otherwise. -/
def MainTheme.get_warnings (mt : MainTheme) : Option (List String) :=
  match Theme.get_warnings mt.toTheme with
  | some ws =>
      if !ws.isEmpty then some (ws.map fun w => "Main Theme Warning: " ++ w)
      else none
  | none => none

/-- Embedding of `MainTheme.get_alerts`: the `Theme` alerts prefixed when
truthy, implicit `None` otherwise. -/
def MainTheme.get_alerts (mt : MainTheme) : Option (List String) :=
  match Theme.get_alerts mt.toTheme with
  | some as_ =>
      if !as_.isEmpty then some (as_.map fun a => "Main Theme Vulnerability: " ++ a)
      else none
  | none => none

/-- Embedding of a `Timthumb` finding: its finding-level vulnerabilities and
its version sub-finding (always a `WPItemVersion` instance). -/
structure Timthumb where
  vulnerabilities : List Vulnerability
  version : WPItemVersion
deriving DecidableEq

/-- Embedding of `Timthumb.get_alerts`: guarded by the truthiness of the
finding-level alerts; when they are non-empty, the finding-level alerts
followed by the version alerts, prefixed; otherwise the implicit Python
`None`. -/
def Timthumb.get_alerts (t : Timthumb) : Option (List String) :=
  if !(Finding.get_alerts t.vulnerabilities).isEmpty then
    some ((Finding.get_alerts t.vulnerabilities ++ t.version.get_alerts).map
      fun a => "Timthumb Vulnerability: " ++ a)
  else none

/-- Embedding of `Timthumb.get_warnings`: always empty. -/
def Timthumb.get_warnings (_ : Timthumb) : List String := []

/-! ## Decoded JSON values and `parse_json` -/

/-- Decoded JSON values as handed to `parse_json` by the dispatcher. -/
inductive Json where
  | null
  | str (s : String)
  | bool (b : Bool)
  | num (n : Int)
  | arr (xs : List Json)
  | obj (fields : List (String × Json))

/-- Python truthiness of a decoded JSON value: `None`, `False`, `0`, the
empty string, the empty list and the empty dict are falsy. -/
def Json.truthy : Json → Bool
  | .null => false
  | .str s => s ≠ ""
  | .bool b => b
  | .num n => n ≠ 0
  | .arr xs => !xs.isEmpty
  | .obj fields => !fields.isEmpty

/-- Embedding of Python `str()` on decoded JSON scalars, as used by the
`%s` interpolations of the source (container rendering is not needed by any
claim and is abbreviated). -/
def pyStr : Json → String
  | .null => "None"
  | .str s => s
  | .bool true => "True"
  | .bool false => "False"
  | .num n => toString n
  | .arr _ => "[...]"
  | .obj _ => "[...]"

/-- Embedding of `value.get(key)` (Python `dict.get` with default `None`):
a lookup on a dict, an `AttributeError` on any other value. -/
def Json.getE : Json → String → Except String Json
  | .obj fields, key =>
      .ok (match fields.find? (fun p => p.1 == key) with
        | some p => p.2
        | none => .null)
  | _, _ => .error "AttributeError: object has no attribute get"

/-- Embedding of `value[key]` (Python subscription): a strict lookup on a
dict raising `KeyError` when absent, a `TypeError` on any other value. -/
def Json.indexE : Json → String → Except String Json
  | .obj fields, key =>
      (match fields.find? (fun p => p.1 == key) with
        | some p => .ok p.2
        | none => .error "KeyError")
  | _, _ => .error "TypeError: value is not subscriptable by a string"

/-- Embedding of `key in value` (Python containment): key containment on a
dict, substring containment on a string, element containment on a list, a
`TypeError` on the other values. -/
def Json.hasKeyE : Json → String → Except String Bool
  | .obj fields, key => .ok (fields.any (fun p => p.1 == key))
  | .str s, key => .ok (occursIn key s)
  | .arr xs, key =>
      .ok (xs.any fun j => match j with | .str s => s == key | _ => false)
  | _, _ => .error "TypeError: argument is not iterable"

/-- Python truthiness of the optional strings returned by the
`parse_warning_*` helpers (`None` and the empty string are falsy). -/
def truthyOptStr : Option String → Bool
  | none => false
  | some s => s ≠ ""

/-- Embedding of `parse_confidence`: the confidence line when the finding
carries a `confidence` key, the empty string otherwise. -/
def parse_confidence (finding : Json) : Except String String := do
  let hk ← finding.hasKeyE "confidence"
  if hk then do
    let c ← finding.indexE "confidence"
    return "\nConfidence: " ++ pyStr c
  else
    return ""

/-- Embedding of `parse_warning_wordpress`: `None` on a falsy finding, the
insecure-version warning when the status is `insecure`; on any other status
the source returns the local `fdata` without ever assigning it, which raises
`UnboundLocalError` in Python. -/
def parse_warning_wordpress (finding : Json) : Except String (Option String) := do
  if !finding.truthy then
    return none
  let status ← finding.getE "status"
  if (match status with | .str s => s == "insecure" | _ => false) then do
    let number ← finding.indexE "number"
    let release_date ← finding.indexE "release_date"
    let conf ← parse_confidence finding
    return some ("Insecure WordPress version " ++ pyStr number ++
      " identified (released on " ++ pyStr release_date ++ ")" ++ conf)
  else
    throw "UnboundLocalError: local variable fdata referenced before assignment"

/-- Embedding of `parse_warning_theme_or_plugin`: `None` on a falsy finding
or when no issue is present; otherwise the slug followed by the outdated,
directory-listing and error-log issue lines, the location and the
confidence. -/
def parse_warning_theme_or_plugin (finding : Json) : Except String (Option String) := do
  if !finding.truthy then
    return none
  let hslug ← finding.hasKeyE "slug"
  let fdata ← if hslug then do
      let v ← finding.indexE "slug"
      pure (pyStr v)
    else pure ""
  let outdated ← finding.getE "outdated"
  let issue_data ← if outdated.truthy then do
      let lv ← finding.indexE "latest_version"
      pure ("\nThe version is out of date, the latest version is " ++ pyStr lv)
    else pure ""
  let dl ← finding.getE "directory_listing"
  let issue_data :=
    if dl.truthy then issue_data ++ "\nDirectory listing is enabled" else issue_data
  let el ← finding.getE "error_log_url"
  let issue_data ← if el.truthy then do
      let v ← finding.indexE "error_log_url"
      pure (issue_data ++ "\nAn error log file has been found: " ++ pyStr v)
    else pure issue_data
  if issue_data == "" then
    return none
  let fdata := fdata ++ issue_data
  let hloc ← finding.hasKeyE "location"
  let fdata ← if hloc then do
      let v ← finding.indexE "location"
      pure (fdata ++ "\nLocation: " ++ pyStr v)
    else pure fdata
  let conf ← parse_confidence finding
  return some (fdata ++ conf)

/-- Lookup with default `None` on the top-level report dict. -/
def dictGet (data : List (String × Json)) (key : String) : Json :=
  match data.find? (fun p => p.1 == key) with
  | some p => p.2
  | none => .null

/-- Per-slug body of the `plugins` loop of `parse_json`. -/
def parse_json_plugin_step (warnings : List String) (finding : Json) :
    Except String (List String) := do
  let plugin_warning ← parse_warning_theme_or_plugin finding
  if truthyOptStr plugin_warning then do
    let v ← finding.getE "version"
    let w := plugin_warning.getD ""
    let w :=
      if !v.truthy then
        w ++ "\nThe version could not be determined, all known vulnerabilites are listed"
      else w
    pure (warnings ++ [w])
  else
    pure warnings

/-- Embedding of `parse_json` over a decoded top-level report object.  The
sanity check raises on an empty or target-less report; the body collects the
WordPress-core warning, the main-theme warning and the per-plugin warnings.
The calls filling the info bucket and the alert bucket are commented out in
the source, so those buckets stay empty. -/
def parse_json (data : List (String × Json)) :
    Except String (List String × List String × List String) := do
  if data.isEmpty || !(data.any fun p => p.1 == "target_url") ||
      !((dictGet data "target_url").truthy) then
    throw "No data in wpscan JSON output (None) or no target_url field present in the provided Json data. The scan might have failed."
  let infos : List String := []
  let wp_warning ← parse_warning_wordpress (dictGet data "version")
  let warnings : List String :=
    if truthyOptStr wp_warning then [wp_warning.getD ""] else []
  let main_theme_warning ← parse_warning_theme_or_plugin (dictGet data "main_theme")
  let warnings :=
    if truthyOptStr main_theme_warning then warnings ++ [main_theme_warning.getD ""]
    else warnings
  let plugins :=
    if data.any (fun p => p.1 == "plugins") then dictGet data "plugins"
    else Json.obj []
  let warnings ← match plugins with
    | Json.obj fields =>
        fields.foldlM (fun ws kv => parse_json_plugin_step ws kv.2) warnings
    | Json.arr [] => pure warnings
    | Json.str "" => pure warnings
    | Json.arr _ => .error "AttributeError: list object has no attribute get"
    | Json.str _ => .error "AttributeError: str object has no attribute get"
    | _ => .error "TypeError: object is not iterable"
  return (infos, warnings, [])

/-! ## CLI transcript parser (`parse_cli`) -/

/-- Embedding of the substitution `re.sub(r'(\x1b|\[[0-9][0-9]?m)', '', line)`
on the character list: every escape character and every bracketed one- or
two-digit color code is removed, scanning left to right with the regex
preference for the two-digit form. -/
def stripColor : List Char → List Char
  | [] => []
  | '\x1b' :: rest => stripColor rest
  | '[' :: d1 :: 'm' :: rest =>
      if d1.isDigit then stripColor rest
      else '[' :: stripColor (d1 :: 'm' :: rest)
  | '[' :: d1 :: d2 :: 'm' :: rest =>
      if d1.isDigit && d2.isDigit then stripColor rest
      else '[' :: stripColor (d1 :: d2 :: 'm' :: rest)
  | c :: rest => c :: stripColor rest

/-- String version of `stripColor`. -/
def stripColorString (s : String) : String :=
  String.mk (stripColor s.toList)

/-- Splitting a character list at newline characters. -/
def splitOnNewline : List Char → List (List Char)
  | [] => [[]]
  | c :: rest =>
    let r := splitOnNewline rest
    if c == '\n' then [] :: r
    else
      match r with
      | g :: gs => (c :: g) :: gs
      | [] => [[c]]

/-- Embedding of Python `str.splitlines()` for newline-separated input (the
only line separator occurring in the modelled transcripts): the empty string
yields no lines and a trailing newline yields no trailing empty line. -/
def pySplitlines (s : String) : List String :=
  if s == "" then []
  else
    let parts := (splitOnNewline s.toList).map String.mk
    if parts.getLast? == some "" then parts.dropLast else parts

/-- Embedding of `'\n'.join(...)`. -/
def joinLines : List String → String
  | [] => ""
  | [x] => x
  | x :: rest => x ++ "\n" ++ joinLines rest

/-- Embedding of `parse_cli_toogle`: the marker detection over one stripped
line, updating the cumulative warning and alert toggles. -/
def parse_cli_toogle (line : String) (warning_on alert_on : Bool) : Bool × Bool :=
  let wa :=
    if occursIn "33m[!]" line then (true, alert_on)
    else if occursIn "31m[!]" line then (warning_on, true)
    else if occursIn "[!]" line &&
        (occursIn "The version is out of date" line ||
         occursIn "No WPVulnDB API Token given" line ||
         occursIn "You can get a free API token" line) then
      (true, alert_on)
    else if occursIn "[!]" line then (warning_on, true)
    else (warning_on, alert_on)
  let warning_on := wa.1
  let alert_on := wa.2
  let warning_on := if occursIn "Insecure" line then true else warning_on
  if occursIn "The version could not be determined" line && alert_on then
    (true, false)
  else
    (warning_on, alert_on)

/-- Loop of the compound-block splitting of `parse_cli`: each line whose
stripped form is a bar closes the current sub-message (joining its non-empty,
non-bar lines) and starts the next one with the bar line itself. -/
def splitMessagesLoop : List String → List String → List String → List String
  | [], _, acc => acc
  | l :: rest, msg, acc =>
    if pyStrip l == "|" then
      splitMessagesLoop rest [l]
        (acc ++ [joinLines (msg.filter fun m => m != "" && m != "|")])
    else
      splitMessagesLoop rest (msg ++ [l]) acc

/-- Splitting of a compound block into bar-delimited sub-messages, with the
sentinel bar appended by the source to flush the last sub-message. -/
def splitMessages (message_lines : List String) : List String :=
  splitMessagesLoop (message_lines ++ ["|"]) [] []

/-- Embedding of `m.splitlines()[0]`: the first line, or the Python
`IndexError` on an empty string. -/
def firstLineE (m : String) : Except String String :=
  match pySplitlines m with
  | [] => .error "IndexError: list index out of range"
  | l :: _ => .ok l

/-- Partition of the separated sub-messages into the title sub-messages (the
vulnerabilities) and the rest, testing `'| [!] Title' in m.splitlines()[0]`
exactly as the two comprehensions of the source do. -/
def partitionTitleE : List String → Except String (List String × List String)
  | [] => .ok ([], [])
  | m :: rest => do
    let fl ← firstLineE m
    let (vulns, others) ← partitionTitleE rest
    if occursIn "| [!] Title" fl then
      .ok (m :: vulns, others)
    else
      .ok (vulns, m :: others)

/-- Loop state of `parse_cli`: the three buckets, the two toggles and the
line buffer of the message being assembled. -/
structure CliState where
  messages : List String
  warnings : List String
  alerts : List String
  warning_on : Bool
  alert_on : Bool
  message_lines : List String
deriving DecidableEq

/-- Initial state of the `parse_cli` loop. -/
def initCliState : CliState :=
  { messages := [], warnings := [], alerts := [], warning_on := false,
    alert_on := false, message_lines := [] }

/-- Embedding of one iteration of the `parse_cli` line loop: strip the line,
update the toggles, strip the color codes, append to the buffer, and - on a
blank line closing a non-empty message - dispatch the message.  A compound
block (toggle set and vulnerability-count phrase present) is re-split on its
bar-delimited sub-messages; its title sub-messages go to alerts or warnings
by toggle.  When title sub-messages exist, the source then evaluates the
bare name `is_false_positive` (line 746), which is defined only as a static
method of `WPScanJsonParser` and never at module level, so Python raises
`NameError`; with no title sub-messages the comprehension never evaluates
the name and the residual is appended to the info bucket with a
false-positive prefix. -/
def parse_cli_process_line (st : CliState) (rawLine : String) :
    Except String CliState := do
  let line := pyStrip rawLine
  let wa := parse_cli_toogle line st.warning_on st.alert_on
  let warning_on := wa.1
  let alert_on := wa.2
  let line := stripColorString line
  let message_lines := st.message_lines ++ [line]
  let current_message :=
    pyStrip (joinLines (message_lines.filter fun m => m != "" && m != "|"))
  if pyStrip line != "" || current_message == "" then
    return { st with warning_on := warning_on, alert_on := alert_on,
                     message_lines := message_lines }
  if (alert_on || warning_on) &&
      (occursIn "vulnerabilities identified" current_message ||
       occursIn "vulnerability identified" current_message) then
    let messages_separated := splitMessages message_lines
    let pr ← partitionTitleE messages_separated
    let vulnerabilities := pr.1
    let others := pr.2
    let alerts := if alert_on then st.alerts ++ vulnerabilities else st.alerts
    let warnings :=
      if !alert_on && warning_on then st.warnings ++ vulnerabilities else st.warnings
    let plugin_infos := joinLines others
    if vulnerabilities.isEmpty then
      return { messages := st.messages ++ ["[False positive]\n" ++ plugin_infos],
               warnings := warnings, alerts := alerts, warning_on := false,
               alert_on := false, message_lines := [] }
    else
      throw "NameError: name is_false_positive is not defined"
  else if warning_on then
    return { messages := st.messages, warnings := st.warnings ++ [current_message],
             alerts := st.alerts, warning_on := false, alert_on := false,
             message_lines := [] }
  else
    return { messages := st.messages ++ [current_message], warnings := st.warnings,
             alerts := st.alerts, warning_on := false, alert_on := false,
             message_lines := [] }

/-- Embedding of `parse_cli`: reject any input without the `[+]` marker,
then run the line loop over the split lines plus the sentinel blank line. -/
def parse_cli (wpscan_output : String) (false_positives : List String) :
    Except String (List String × List String × List String) :=
  if !occursIn "[+]" wpscan_output then
    .error "The file does not seem to be a WPScan CLI log."
  else do
    let _ := false_positives
    let st ← (pySplitlines wpscan_output ++ [""]).foldlM parse_cli_process_line
      initCliState
    return (st.messages, st.warnings, st.alerts)

/-- Variant of `parse_cli_process_line` in which the bare name
`is_false_positive` of line 746 is resolved to the static method
`WPScanJsonParser.is_false_positive`, which is the evident intent of the
source; used to state what the compound-block dispatch does once the name
resolution slip is repaired. -/
def parse_cli_process_line_resolved (false_positives : List String)
    (st : CliState) (rawLine : String) : Except String CliState := do
  let line := pyStrip rawLine
  let wa := parse_cli_toogle line st.warning_on st.alert_on
  let warning_on := wa.1
  let alert_on := wa.2
  let line := stripColorString line
  let message_lines := st.message_lines ++ [line]
  let current_message :=
    pyStrip (joinLines (message_lines.filter fun m => m != "" && m != "|"))
  if pyStrip line != "" || current_message == "" then
    return { st with warning_on := warning_on, alert_on := alert_on,
                     message_lines := message_lines }
  if (alert_on || warning_on) &&
      (occursIn "vulnerabilities identified" current_message ||
       occursIn "vulnerability identified" current_message) then
    let messages_separated := splitMessages message_lines
    let pr ← partitionTitleE messages_separated
    let vulnerabilities := pr.1
    let others := pr.2
    let alerts := if alert_on then st.alerts ++ vulnerabilities else st.alerts
    let warnings :=
      if !alert_on && warning_on then st.warnings ++ vulnerabilities else st.warnings
    let plugin_infos := joinLines others
    if (vulnerabilities.filter fun v =>
        !(WPScanJsonParser.is_false_positive v false_positives)).length > 0 then
      return { messages := st.messages, warnings := warnings ++ [plugin_infos],
               alerts := alerts, warning_on := false, alert_on := false,
               message_lines := [] }
    else
      return { messages := st.messages ++ ["[False positive]\n" ++ plugin_infos],
               warnings := warnings, alerts := alerts, warning_on := false,
               alert_on := false, message_lines := [] }
  else if warning_on then
    return { messages := st.messages, warnings := st.warnings ++ [current_message],
             alerts := st.alerts, warning_on := false, alert_on := false,
             message_lines := [] }
  else
    return { messages := st.messages ++ [current_message], warnings := st.warnings,
             alerts := st.alerts, warning_on := false, alert_on := false,
             message_lines := [] }

/-- Variant of `parse_cli` built on the resolved name (see
`parse_cli_process_line_resolved`). -/
def parse_cli_resolved (wpscan_output : String) (false_positives : List String) :
    Except String (List String × List String × List String) :=
  if !occursIn "[+]" wpscan_output then
    .error "The file does not seem to be a WPScan CLI log."
  else do
    let st ← (pySplitlines wpscan_output ++ [""]).foldlM
      (parse_cli_process_line_resolved false_positives) initCliState
    return (st.messages, st.warnings, st.alerts)

/-! ## Claim theorems -/

/-- Structured finding of claim C1: `outdated: true`, `latest_version:
"2.0"`, one slug-level vulnerability and no `version` key. -/
def c1_finding : Json :=
  Json.obj [("slug", Json.str "someplugin"), ("outdated", Json.bool true),
    ("latest_version", Json.str "2.0"),
    ("vulnerabilities", Json.arr [Json.obj [("title", Json.str "Some vuln")]])]

/-- Object state the assignments of `WPItem.__init__` evidently aim at for
the C1 finding.  The source never reaches these assignments - construction
raises first, see `WPItem.init` - so this state only serves to show that
even then the claimed demotion would not happen. -/
def c1_item : WPItem :=
  { slug := "someplugin", location := none, latest_version := some "2.0",
    last_updated := none, outdated := true, readme_url := none,
    directory_listing := false, error_log_url := none,
    vulnerabilities :=
      [{ title := "Some vuln", cvss := none, fixed_in := none, references := [] }],
    version := WPItemVersion.intendedOfNone }

/-- C1: at the claimed finding the code cannot exhibit the claimed
behaviour at all: `WPItem.__init__` raises `TypeError` on its very first
statement (line 237), before the slug, the vulnerabilities or the version
attribute are assigned, and the version sub-construction
`WPItemVersion(None)` raises the same way (line 217), so
`get_alerts`/`get_warnings` never run and neither the claimed empty alert
bucket nor the claimed demoted warnings are ever produced. -/
theorem c1_construction_raises :
    WPItem.init c1_finding =
      .error "TypeError: __init__() takes 2 positional arguments but 3 were given" ∧
    WPItemVersion.init Json.null =
      .error "TypeError: __init__() takes 2 positional arguments but 3 were given" :=
  ⟨rfl, rfl⟩

/-- Supporting fact for C1: even on the object state the constructor
assignments evidently aim at, the claimed demotion still would not happen:
the version attribute is a `WPItemVersion` instance and instances are
always truthy, so the guard `if self.version` passes, the vulnerabilities
surface as alerts, the demotion branch `if not self.version` stays dead,
and the single warning is the outdated warning (which does contain
`out of date` and `2.0`) without the version-undetermined notice. -/
theorem c1_intended_state_still_alerts :
    WPItem.get_alerts c1_item = ["Some vuln\nNot fixed yet"] ∧
    WPItem.get_warnings c1_item =
      ["someplugin\nThe version is out of date, the latest version is 2.0"] ∧
    Plugin.get_alerts ⟨c1_item⟩ =
      some ["Plugin Vulnerability: Some vuln\nNot fixed yet"] ∧
    Plugin.get_warnings ⟨c1_item⟩ =
      some ["Plugin Warning: someplugin\nThe version is out of date, the latest version is 2.0"] ∧
    WPItemVersion.intendedOfNone.truthy = true :=
  ⟨rfl, rfl, rfl, rfl, rfl⟩

/-- C3: the in-place `remove` during iteration makes the loop skip the
element that slides into the removed slot, so a false positive directly
following another false positive survives the filter. -/
theorem c3_filter_skips_consecutive_false_positive :
    WPScanJsonParser.ignore_false_positives ["badone", "badtwo"] ["bad"] =
      ["badtwo"] ∧
    WPScanJsonParser.is_false_positive "badtwo" ["bad"] = true :=
  ⟨rfl, rfl⟩

/-- C4: because a skipped false positive survives one pass and is removed by
the next, filtering twice differs from filtering once. -/
theorem c4_filter_not_idempotent :
    WPScanJsonParser.ignore_false_positives
      (WPScanJsonParser.ignore_false_positives ["badone", "badtwo"] ["bad"]) ["bad"] ≠
    WPScanJsonParser.ignore_false_positives ["badone", "badtwo"] ["bad"] := by
  decide

/-- Transcript block of claim C6, preceded by a heading block carrying the
mandatory marker; every bracketed bang of the compound block carries the
color warning marker, so the warning toggle is set and the alert toggle is
not. -/
def c6_input : String :=
  "[+] URL: http://example.com/\n\n\x1b[33m[!] Title: X\n\x1b[33m[!] 2 vulnerabilities identified:\n|\n| \x1b[33m[!] Title: CVE-1\n|\n| \x1b[33m[!] Title: CVE-2"

/-- C6: on the claimed transcript the compound-block dispatch reaches the
false-positive count of line 746, which evaluates the bare name
`is_false_positive`; that name exists only as a static method of
`WPScanJsonParser`, never at module level, so the parse raises instead of
returning the buckets. -/
theorem c6_compound_block_raises_name_error :
    parse_cli c6_input [] =
      .error "NameError: name is_false_positive is not defined" := by
  rfl

/-- Supporting fact for C6: once the name of line 746 is resolved to the
static method (the evident intent), both CVE title sub-blocks are routed to
the warning bucket and the alert bucket stays empty, as the claim states. -/
theorem c6_resolved_routes_to_warnings :
    parse_cli_resolved c6_input [] =
      .ok (["[+] URL: http://example.com/"],
        ["| [!] Title: CVE-1", "| [!] Title: CVE-2",
         "[!] Title: X\n[!] 2 vulnerabilities identified:"],
        []) := by
  rfl

/-- C7 counterexample: parsing the minimal structured report succeeds, but
the info bucket of the result is empty - it does not contain a target-info
line, because the call rendering the misc infos is commented out in the
source - refuting the second half of the claim. -/
theorem c7_no_target_info_line :
    parse_json [("target_url", Json.str "http://x")] = .ok ([], [], []) ∧
    (parse_json [("target_url", Json.str "http://x")]).toOption.map
        (fun r => r.1.any fun i => occursIn "Target URL" i) = some false :=
  ⟨rfl, rfl⟩

/-- C7 amended: a null target URL is rejected with the format error, and
the minimal structured report parses to three empty buckets. -/
theorem c7_parse_json_amended :
    parse_json [("target_url", Json.null)] =
      .error "No data in wpscan JSON output (None) or no target_url field present in the provided Json data. The scan might have failed." ∧
    parse_json [("target_url", Json.str "http://x")] = .ok ([], [], []) :=
  ⟨rfl, rfl⟩

/-- C8: any input in which the marker `[+]` does not occur is rejected with
the not-a-WPScan-log format error before any tokenization. -/
theorem c8_no_marker_rejected (s : String) (false_positives : List String)
    (h : occursIn "[+]" s = false) :
    parse_cli s false_positives =
      .error "The file does not seem to be a WPScan CLI log." := by
  simp [parse_cli, h]

/-- Witness for C8 at the concrete input `hello`. -/
theorem c8_no_marker_rejected_witness :
    occursIn "[+]" "hello" = false ∧
    parse_cli "hello" [] =
      .error "The file does not seem to be a WPScan CLI log." :=
  ⟨rfl, c8_no_marker_rejected "hello" [] rfl⟩

/-- C5: for any component whose warning bucket after false-positive
filtering is exactly one message carrying the version-undetermined
boilerplate, the warning bucket returned by the dispatcher is empty,
whatever the rule set: the structural suppression of
`WPScanJsonParser.get_warnings` fires because the checked phrase is a
prefix of the boilerplate. -/
theorem c5_boilerplate_warning_suppressed (c : Component) (fps : List String)
    (w : String)
    (hpost : WPScanJsonParser.ignore_false_positives c.warnings fps = [w])
    (hb : occursIn "The version could not be determined by WPScan" w = true) :
    (WPScanJsonParser.mk [c] fps).get_warnings = [] := by
  have hshort : occursIn "The version could not be determined" w = true :=
    occursIn_trans _ _ _ (by rfl) hb
  simp [WPScanJsonParser.get_warnings, hpost, hshort]

/-- Component used by the C5 witness. -/
def c5_component : Component :=
  { infos := [],
    warnings := ["The version could not be determined by WPScan, all known vulnerabilities are listed"],
    alerts := [] }

/-- Witness for C5: with no rules at all, the sole boilerplate warning
survives filtering unchanged and the dispatcher still returns an empty
warning bucket. -/
theorem c5_boilerplate_warning_suppressed_witness :
    WPScanJsonParser.ignore_false_positives c5_component.warnings [] =
      ["The version could not be determined by WPScan, all known vulnerabilities are listed"] ∧
    occursIn "The version could not be determined by WPScan"
      "The version could not be determined by WPScan, all known vulnerabilities are listed" = true ∧
    (WPScanJsonParser.mk [c5_component] []).get_warnings = [] :=
  ⟨rfl, rfl, c5_boilerplate_warning_suppressed c5_component [] _ rfl rfl⟩

/-- Messages matching no false-positive rule are never removed by the
filtering loop. -/
theorem mem_loop_of_not_false_positive (fps : List String) (m : String)
    (hm : WPScanJsonParser.is_false_positive m fps = false) :
    ∀ fuel idx msgs, m ∈ msgs →
      m ∈ ignore_false_positives_loop fps fuel idx msgs := by
  intro fuel
  induction fuel with
  | zero =>
    intro idx msgs h
    simpa [ignore_false_positives_loop] using h
  | succ n ih =>
    intro idx msgs h
    rw [ignore_false_positives_loop]
    split
    · next hlt =>
      dsimp only
      split
      · next hfp =>
        apply ih
        have hne : m ≠ msgs[idx] := by
          intro he
          rw [← he, hm] at hfp
          exact Bool.false_ne_true hfp
        exact (List.mem_erase_of_ne hne).mpr h
      · exact ih _ _ h
    · exact h

/-- A message present before filtering and absent after it matched a
false-positive rule: the loop removes nothing else. -/
theorem is_false_positive_of_removed (fps : List String) (m : String)
    (msgs : List String) (hmem : m ∈ msgs)
    (hrem : m ∉ WPScanJsonParser.ignore_false_positives msgs fps) :
    WPScanJsonParser.is_false_positive m fps = true := by
  by_contra h
  rw [Bool.not_eq_true] at h
  exact hrem (mem_loop_of_not_false_positive fps m h _ _ _ hmem)

/-- C2 amended: every warning or alert message that false-positive
filtering removes from its bucket reappears in the dispatcher info bucket
with the false-positive prefix. -/
theorem c2_removed_messages_resurface (p : WPScanJsonParser) (c : Component)
    (hc : c ∈ p.components) (m : String)
    (hrem :
      (m ∈ c.warnings ∧
        m ∉ WPScanJsonParser.ignore_false_positives c.warnings
              p.false_positives_strings) ∨
      (m ∈ c.alerts ∧
        m ∉ WPScanJsonParser.ignore_false_positives c.alerts
              p.false_positives_strings)) :
    ("[False positive]\n" ++ m) ∈ p.get_infos := by
  have hfp : WPScanJsonParser.is_false_positive m p.false_positives_strings = true := by
    rcases hrem with ⟨h1, h2⟩ | ⟨h1, h2⟩
    · exact is_false_positive_of_removed _ _ _ h1 h2
    · exact is_false_positive_of_removed _ _ _ h1 h2
  have hmem : m ∈ c.alerts ++ c.warnings := by
    rcases hrem with ⟨h1, _⟩ | ⟨h1, _⟩
    · exact List.mem_append_right _ h1
    · exact List.mem_append_left _ h1
  unfold WPScanJsonParser.get_infos
  apply List.mem_flatMap_of_mem hc
  apply List.mem_append_right
  apply List.mem_map_of_mem
  rw [List.mem_filter]
  exact ⟨hmem, hfp⟩

/-- Component used by the C2 counterexample and witness: two consecutive
false positives in the warning bucket. -/
def c2_component : Component :=
  { infos := [], warnings := ["bad one", "bad two"], alerts := [] }

/-- C2 counterexample: with the rule `bad`, the loop removes `bad one` but
skips `bad two`, which stays in the warning bucket while both messages are
also demoted into the info bucket; the post-filter total (0 alerts, 1
warning, 2 infos) differs from the pre-filter total (2 messages). -/
theorem c2_count_equality_fails :
    (WPScanJsonParser.mk [c2_component] ["bad"]).get_alerts.length +
      (WPScanJsonParser.mk [c2_component] ["bad"]).get_warnings.length +
      (WPScanJsonParser.mk [c2_component] ["bad"]).get_infos.length ≠
    c2_component.alerts.length + c2_component.warnings.length +
      c2_component.infos.length := by
  decide

/-- Witness for the amended C2 at the concrete component: the removed
message `bad one` resurfaces in the info bucket with the prefix. -/
theorem c2_removed_messages_resurface_witness :
    ("[False positive]\n" ++ "bad one") ∈
      (WPScanJsonParser.mk [c2_component] ["bad"]).get_infos := by
  apply c2_removed_messages_resurface (WPScanJsonParser.mk [c2_component] ["bad"])
    c2_component (by decide) "bad one"
  left
  exact ⟨by decide, by decide⟩

/-- C10: for each of the four public item classes, an empty rendering of
the underlying item makes the public method return the implicit Python
`None` instead of an empty list. -/
theorem c10_empty_renderings_return_none (p : Plugin) (t : Theme)
    (mt : MainTheme) (tt : Timthumb) :
    (WPItem.get_warnings p.toWPItem = [] → Plugin.get_warnings p = none) ∧
    (WPItem.get_alerts p.toWPItem = [] → Plugin.get_alerts p = none) ∧
    (WPItem.get_warnings t.toWPItem = [] → Theme.get_warnings t = none) ∧
    (WPItem.get_alerts t.toWPItem = [] → Theme.get_alerts t = none) ∧
    (Theme.get_warnings mt.toTheme = none → MainTheme.get_warnings mt = none) ∧
    (Theme.get_alerts mt.toTheme = none → MainTheme.get_alerts mt = none) ∧
    (Finding.get_alerts tt.vulnerabilities = [] ∧ tt.version.get_alerts = [] →
      Timthumb.get_alerts tt = none) := by
  refine ⟨?_, ?_, ?_, ?_, ?_, ?_, ?_⟩ <;> intro h
  · simp [Plugin.get_warnings, h]
  · simp [Plugin.get_alerts, h]
  · simp [Theme.get_warnings, h]
  · simp [Theme.get_alerts, h]
  · simp [MainTheme.get_warnings, h]
  · simp [MainTheme.get_alerts, h]
  · simp [Timthumb.get_alerts, h.1]

/-- Item with no issue data and no vulnerabilities, used by the C10
witness. -/
def c10_item : WPItem :=
  { slug := "emptyslug", location := none, latest_version := none,
    last_updated := none, outdated := false, readme_url := none,
    directory_listing := false, error_log_url := none,
    vulnerabilities := [], version := WPItemVersion.intendedOfNone }

/-- Timthumb with no vulnerabilities, used by the C10 witness. -/
def c10_timthumb : Timthumb :=
  { vulnerabilities := [], version := WPItemVersion.intendedOfNone }

/-- Witness for C10 at concrete items with empty renderings. -/
theorem c10_empty_renderings_return_none_witness :
    Plugin.get_warnings ⟨c10_item⟩ = none ∧
    Plugin.get_alerts ⟨c10_item⟩ = none ∧
    Theme.get_warnings ⟨c10_item⟩ = none ∧
    Theme.get_alerts ⟨c10_item⟩ = none ∧
    MainTheme.get_warnings ⟨⟨c10_item⟩⟩ = none ∧
    MainTheme.get_alerts ⟨⟨c10_item⟩⟩ = none ∧
    Timthumb.get_alerts c10_timthumb = none := by
  obtain ⟨h1, h2, h3, h4, h5, h6, h7⟩ :=
    c10_empty_renderings_return_none ⟨c10_item⟩ ⟨c10_item⟩ ⟨⟨c10_item⟩⟩ c10_timthumb
  exact ⟨h1 rfl, h2 rfl, h3 rfl, h4 rfl, h5 rfl, h6 rfl, h7 ⟨rfl, rfl⟩⟩

/-! ## Support lemmas for the vulnerability rendering claim -/

/-- CVSS piece of the rendered vulnerability alert. -/
def cvssPart (v : Vulnerability) : String :=
  if truthyOpt v.cvss then "\nCVSS: " ++ fmtOpt v.cvss else ""

/-- Fixed-in piece of the rendered vulnerability alert. -/
def fixedPart (v : Vulnerability) : String :=
  if truthyOpt v.fixed_in then "\nFixed in: " ++ fmtOpt v.fixed_in
  else "\nNot fixed yet"

/-- References piece of the rendered vulnerability alert. -/
def refsPart (v : Vulnerability) : String :=
  if v.references.isEmpty then ""
  else "\nReferences: " ++
    strConcat (v.references.map fun p => refGroupRender p.1 p.2)

/-- Decomposition of the rendered alert into its four pieces. -/
theorem get_alerts_decomp (v : Vulnerability) :
    v.get_alerts = [v.title ++ (cvssPart v ++ (fixedPart v ++ refsPart v))] := by
  by_cases h1 : truthyOpt v.cvss = true <;>
    by_cases h2 : truthyOpt v.fixed_in = true <;>
      by_cases h3 : v.references.isEmpty = true <;>
        (simp [Vulnerability.get_alerts, cvssPart, fixedPart, refsPart, h1, h2, h3,
          Bool.not_eq_true, String.append_assoc]
         <;> rfl)

/-- Rendering of one reference line. -/
def refLineRender (ref link : String) : String :=
  if ref == "cve" then
    "\n- CVE: http://cve.mitre.org/cgi-bin/cvename.cgi?name=CVE-" ++ link
  else if ref == "wpvulndb" then
    "\n- WPVulnDB: https://wpvulndb.com/vulnerabilities/" ++ link
  else
    "\n- " ++ pyTitle ref ++ ": " ++ link

/-- A reference group renders one line per link. -/
theorem refGroupRender_eq (ref : String) (links : List String) :
    refGroupRender ref links = strConcat (links.map (refLineRender ref)) := by
  unfold refGroupRender
  by_cases h1 : (ref == "cve") = true
  · have hf : refLineRender ref = fun link =>
        "\n- CVE: http://cve.mitre.org/cgi-bin/cvename.cgi?name=CVE-" ++ link := by
      funext link
      simp [refLineRender, h1]
    rw [if_pos h1, hf]
  · by_cases h2 : (ref == "wpvulndb") = true
    · have hf : refLineRender ref = fun link =>
          "\n- WPVulnDB: https://wpvulndb.com/vulnerabilities/" ++ link := by
        funext link
        simp [refLineRender, h1, h2]
      rw [if_neg (by simp [h1]), if_pos h2, hf]
    · have hf : refLineRender ref = fun link =>
          "\n- " ++ pyTitle ref ++ ": " ++ link := by
        funext link
        simp [refLineRender, h1, h2]
      rw [if_neg (by simp [h1]), if_neg (by simp [h2]), hf]

/-- Concatenation of rendered pieces splits at any member of the list. -/
theorem strConcat_decomp {α : Type} (f : α → String) (xs : List α) (x : α)
    (hx : x ∈ xs) : ∃ A B, strConcat (xs.map f) = A ++ (f x ++ B) := by
  induction xs with
  | nil => cases hx
  | cons y ys ih =>
    rcases List.mem_cons.mp hx with rfl | hmem
    · exact ⟨"", strConcat (ys.map f), by simp [strConcat]⟩
    · obtain ⟨A, B, hAB⟩ := ih hmem
      exact ⟨f y ++ A, B, by simp [strConcat, hAB, String.append_assoc]⟩

/-- A string occurs in itself. -/
theorem occursIn_refl (n : String) : occursIn n n = true := by
  unfold occursIn
  rw [occursList_iff]
  exact ⟨[], [], by simp⟩

/-- A string occurs in itself followed by anything. -/
theorem occursIn_self_prefix (n b : String) : occursIn n (n ++ b) = true := by
  unfold occursIn
  rw [occursList_iff]
  exact ⟨[], b.toList, by simp⟩

/-- Occurrence is preserved by appending on the right. -/
theorem occursIn_append_left (n a b : String) (h : occursIn n a = true) :
    occursIn n (a ++ b) = true := by
  unfold occursIn at *
  rw [occursList_iff] at h ⊢
  obtain ⟨x, y, hx⟩ := h
  exact ⟨x, y ++ b.toList, by simp [String.toList] at hx ⊢; simp [hx]⟩

/-- Occurrence is preserved by prepending on the left. -/
theorem occursIn_append_right (n a b : String) (h : occursIn n b = true) :
    occursIn n (a ++ b) = true := by
  unfold occursIn at *
  rw [occursList_iff] at h ⊢
  obtain ⟨x, y, hx⟩ := h
  exact ⟨a.toList ++ x, y, by simp [String.toList] at hx ⊢; simp [hx]⟩

/-- Occurrence of a single character is membership. -/
theorem occursList_singleton (c : Char) (h : List Char) :
    occursList [c] h = true ↔ c ∈ h := by
  induction h with
  | nil => simp [occursList]
  | cons b bs ih =>
    have e : occursList [c] (b :: bs) =
        (startsList [c] (b :: bs) || occursList [c] bs) := rfl
    rw [e]
    simp only [startsList, Bool.or_eq_true, Bool.and_eq_true, beq_iff_eq, ih,
      List.mem_cons, and_true]

/-- A newline occurs in a string iff the character list contains one. -/
theorem occursIn_newline_iff (t : String) :
    occursIn "\n" t = true ↔ '\n' ∈ t.toList := by
  unfold occursIn
  exact occursList_singleton '\n' t.toList

/-- Splitting never returns the empty group list. -/
theorem splitOnNewline_ne_nil (l : List Char) : splitOnNewline l ≠ [] := by
  induction l with
  | nil => simp [splitOnNewline]
  | cons c cs ih =>
    simp only [splitOnNewline]
    split
    · simp
    · split
      · simp
      · simp

/-- Splitting a newline-free line followed by a newline peels off exactly
that line. -/
theorem splitOnNewline_append (l rest : List Char) (hl : '\n' ∉ l) :
    splitOnNewline (l ++ '\n' :: rest) = l :: splitOnNewline rest := by
  induction l with
  | nil => simp [splitOnNewline]
  | cons c cs ih =>
    have hc : (c == '\n') = false := by
      simp only [beq_eq_false_iff_ne, ne_eq]
      intro h
      exact hl (h ▸ List.mem_cons_self c cs)
    have hcs : '\n' ∉ cs := fun h => hl (List.mem_cons_of_mem _ h)
    simp only [List.cons_append, splitOnNewline, hc, Bool.false_eq_true, if_false,
      List.append_eq]
    rw [ih hcs]

/-- The first line of a title followed by a newline and anything else is the
title, provided the title itself contains no newline. -/
theorem firstLineE_title (t r : String) (ht : occursIn "\n" t = false) :
    firstLineE (t ++ ("\n" ++ r)) = .ok t := by
  have htl : '\n' ∉ t.toList := by
    intro hm
    rw [(occursIn_newline_iff t).mpr hm] at ht
    exact Bool.noConfusion ht
  have hdata : (t ++ ("\n" ++ r)).toList = t.toList ++ '\n' :: r.toList := by
    simp [String.toList, String.data_append]
  have hne : (t ++ ("\n" ++ r) == "") = false := by
    rw [beq_eq_false_iff_ne]
    intro h
    have : (t ++ ("\n" ++ r)).toList = [] := by rw [h]; rfl
    rw [hdata] at this
    exact List.cons_ne_nil _ _ (List.append_eq_nil.mp this).2
  have hsplit : splitOnNewline (t ++ ("\n" ++ r)).toList =
      t.toList :: splitOnNewline r.toList := by
    rw [hdata]
    exact splitOnNewline_append _ _ htl
  unfold firstLineE pySplitlines
  rw [hne]
  simp only [Bool.false_eq_true, if_false, hsplit, List.map_cons]
  have hmk : String.mk t.toList = t := rfl
  rcases hmap : (splitOnNewline r.toList).map String.mk with _ | ⟨y, ys⟩
  · exact absurd (List.map_eq_nil_iff.mp hmap) (splitOnNewline_ne_nil _)
  · by_cases hlast : ((String.mk t.toList :: y :: ys).getLast? == some "") = true
    · simp only [hlast, if_true, List.dropLast_cons₂]
      simp [hmk]
    · rw [Bool.not_eq_true] at hlast
      simp only [hlast, Bool.false_eq_true, if_false]
      simp [hmk]

/-- C9: every vulnerability record (with its title, the first line of the
alert, present as a newline-free string) renders exactly one alert: the
first line is the title, the alert contains the CVSS score line when the
score is present, a fixed-in line when the fixed-in version is present and
the not-fixed notice otherwise, and one reference line per link grouped by
reference-type key. -/
theorem c9_vulnerability_alert_rendering (v : Vulnerability)
    (htitle : occursIn "\n" v.title = false) :
    ∃ a, v.get_alerts = [a] ∧
      firstLineE a = .ok v.title ∧
      (truthyOpt v.cvss = true → occursIn ("CVSS: " ++ fmtOpt v.cvss) a = true) ∧
      (truthyOpt v.fixed_in = true →
        occursIn ("Fixed in: " ++ fmtOpt v.fixed_in) a = true) ∧
      (truthyOpt v.fixed_in = false → occursIn "Not fixed yet" a = true) ∧
      (∀ ref links link, (ref, links) ∈ v.references → link ∈ links →
        occursIn (refLineRender ref link) a = true) := by
  refine ⟨v.title ++ (cvssPart v ++ (fixedPart v ++ refsPart v)),
    get_alerts_decomp v, ?_, ?_, ?_, ?_, ?_⟩
  · by_cases hc : truthyOpt v.cvss = true
    · rw [show cvssPart v = "\nCVSS: " ++ fmtOpt v.cvss from by simp [cvssPart, hc]]
      exact firstLineE_title v.title
        (("CVSS: " ++ fmtOpt v.cvss) ++ (fixedPart v ++ refsPart v)) htitle
    · rw [Bool.not_eq_true] at hc
      rw [show cvssPart v = "" from by simp [cvssPart, hc]]
      by_cases hf : truthyOpt v.fixed_in = true
      · rw [show fixedPart v = "\nFixed in: " ++ fmtOpt v.fixed_in from by
          simp [fixedPart, hf]]
        exact firstLineE_title v.title
          (("Fixed in: " ++ fmtOpt v.fixed_in) ++ refsPart v) htitle
      · rw [Bool.not_eq_true] at hf
        rw [show fixedPart v = "\nNot fixed yet" from by simp [fixedPart, hf]]
        exact firstLineE_title v.title ("Not fixed yet" ++ refsPart v) htitle
  · intro hc
    rw [show cvssPart v = "\nCVSS: " ++ fmtOpt v.cvss from by simp [cvssPart, hc]]
    apply occursIn_append_right
    apply occursIn_append_left
    exact occursIn_append_right _ "\n" _ (occursIn_refl _)
  · intro hf
    rw [show fixedPart v = "\nFixed in: " ++ fmtOpt v.fixed_in from by
      simp [fixedPart, hf]]
    apply occursIn_append_right
    apply occursIn_append_right
    apply occursIn_append_left
    exact occursIn_append_right _ "\n" _ (occursIn_refl _)
  · intro hf
    rw [show fixedPart v = "\nNot fixed yet" from by simp [fixedPart, hf]]
    apply occursIn_append_right
    apply occursIn_append_right
    apply occursIn_append_left
    exact occursIn_append_right _ "\n" _ (occursIn_refl _)
  · intro ref links link href hlink
    have hne : v.references.isEmpty = false := by
      rcases h : v.references with _ | ⟨x, xs⟩
      · rw [h] at href; cases href
      · rfl
    rw [show refsPart v = "\nReferences: " ++
        strConcat (v.references.map fun p => refGroupRender p.1 p.2) from by
      simp [refsPart, hne]]
    apply occursIn_append_right
    apply occursIn_append_right
    apply occursIn_append_right
    apply occursIn_append_right
    obtain ⟨A, B, hAB⟩ :=
      strConcat_decomp (fun p => refGroupRender p.1 p.2) v.references (ref, links) href
    rw [hAB]
    apply occursIn_append_right
    apply occursIn_append_left
    rw [refGroupRender_eq]
    obtain ⟨C, D, hCD⟩ := strConcat_decomp (refLineRender ref) links link hlink
    rw [hCD]
    apply occursIn_append_right
    exact occursIn_self_prefix _ _

/-- Vulnerability record used by the C9 witness: a bare title plus a `cve`
reference group holding one identifier. -/
def c9_record : Vulnerability :=
  { title := "Some vulnerability", cvss := none, fixed_in := none,
    references := [("cve", ["2020-1234"])] }

/-- Witness for C9: on the concrete record, the single alert leads with the
title, carries the not-fixed notice, and its reference line contains the
identifier and the public vulnerability-database URL. -/
theorem c9_vulnerability_alert_rendering_witness :
    occursIn "\n" c9_record.title = false ∧
    ∃ a, c9_record.get_alerts = [a] ∧
      firstLineE a = .ok "Some vulnerability" ∧
      occursIn "Not fixed yet" a = true ∧
      occursIn "2020-1234" a = true ∧
      occursIn "http://cve.mitre.org/cgi-bin/cvename.cgi" a = true := by
  refine ⟨rfl, ?_⟩
  obtain ⟨a, h1, h2, _, _, h5, h6⟩ := c9_vulnerability_alert_rendering c9_record rfl
  have hline := h6 "cve" ["2020-1234"] "2020-1234" (by simp [c9_record]) (by simp)
  refine ⟨a, h1, h2, h5 rfl, ?_, ?_⟩
  · exact occursIn_trans _ _ _ (by rfl) hline
  · exact occursIn_trans _ _ _ (by rfl) hline
